import Mathlib

/-!
Shallow embedding of the client-side state engine of the AI prompt feed
(`src/app/page.tsx` of ai-prompt-saver): the data model (Prompt, Comment,
toast notifications, the current user), the event handlers (`handleSubmit`,
`handleDelete`, `handleLike`, `handleCommentSubmit`, `addToast`,
`removeToast`), the load-time normalization of server data, and the
search/category filtering.  JavaScript strings are Lean `String`s;
`Date.now()` and `new Date().toISOString()` are passed in explicitly as
`now : Nat` / `nowIso : String`; JS truthiness of optional strings
(`a || b`, falsy on `undefined` and `""`) is modelled by `jsOrStr`.
-/

/-- Kind of a toast notification: the `type` field of `ToastType`
(`"success" | "error"` in the source). -/
inductive ToastKind where
  | success
  | error
deriving Repr, DecidableEq

/-- `type ToastType = { id: number; message: string; type: "success" | "error" }`. -/
structure ToastType where
  id : Nat
  message : String
  type : ToastKind
deriving Repr, DecidableEq

/-- `type Comment = { id, user_name, text, created_at }`. -/
structure Comment where
  id : String
  user_name : String
  text : String
  created_at : String
deriving Repr, DecidableEq

/-- `type Prompt` of `src/app/page.tsx`: the feed entity.  `likes` is a JS
number holding an integer, modelled as `Int` so that decrements below zero
are representable. -/
structure Prompt where
  id : String
  author_id : String
  author_name : String
  title : String
  content : String
  category : String
  created_at : String
  likes : Int
  liked_by_user : Bool
  comments : List Comment
deriving Repr, DecidableEq

/-- The authenticated Supabase user as the handlers use it: `user.id`,
`user.user_metadata?.full_name` and `user.email` (the latter two possibly
absent). -/
structure User where
  id : String
  full_name : Option String
  email : Option String
deriving Repr, DecidableEq

/-- The create-form state `{ title, content, category }`. -/
structure Form where
  title : String
  content : String
  category : String
deriving Repr, DecidableEq

/-- The component state relevant to the handlers: `user`, `prompts`,
`toasts`, `form`, `showForm` and `commentInputs` (the JS record
`Record<string, string>` as an association list). -/
structure AppState where
  user : Option User
  prompts : List Prompt
  toasts : List ToastType
  form : Form
  showForm : Bool
  commentInputs : List (String × String)
deriving Repr, DecidableEq

/-- JS `a || b` on an optional string: `undefined` and `""` are falsy. -/
def jsOrStr (a : Option String) (b : String) : String :=
  match a with
  | none => b
  | some s => if s == "" then b else s

/-- JS `String.prototype.trim()`: strip whitespace from both ends. -/
def jsTrim (s : String) : String :=
  ⟨((s.data.dropWhile Char.isWhitespace).reverse.dropWhile Char.isWhitespace).reverse⟩

/-- `user.email?.split('@')[0]`: the part of the address before the first
`@` (the whole string when there is no `@`). -/
def emailLocalPart (e : String) : String :=
  ⟨e.data.takeWhile (fun c => c ≠ '@')⟩

/-- `addToast(message, type)`: `const id = Date.now();
setToasts(prev => [...prev, { id, message, type }])`.  The clock value is
the explicit argument `now`. -/
def addToast (now : Nat) (message : String) (kind : ToastKind)
    (toasts : List ToastType) : List ToastType :=
  toasts ++ [{ id := now, message := message, type := kind }]

/-- `removeToast(id)`: `setToasts(prev => prev.filter(t => t.id !== id))`. -/
def removeToast (id : Nat) (toasts : List ToastType) : List ToastType :=
  toasts.filter (fun t => t.id != id)

/-- The display name used for a new prompt:
`user.user_metadata?.full_name || user.email?.split('@')[0] || "Anonymous"`. -/
def authorDisplayName (u : User) : String :=
  jsOrStr u.full_name (jsOrStr (u.email.map emailLocalPart) "Anonymous")

/-- `handleSubmit`: gate on login (error toast, no mutation), silently
return on blank title/content, otherwise prepend the new prompt, reset the
form, close it and add a success toast. -/
def handleSubmit (now : Nat) (nowIso : String) (s : AppState) : AppState :=
  match s.user with
  | none => { s with toasts := addToast now "Please login to share prompts" ToastKind.error s.toasts }
  | some u =>
    if jsTrim s.form.title == "" || jsTrim s.form.content == "" then s
    else
      let newPrompt : Prompt :=
        { id := toString now
          author_id := u.id
          author_name := authorDisplayName u
          title := s.form.title
          content := s.form.content
          category := s.form.category
          created_at := nowIso
          likes := 0
          liked_by_user := false
          comments := [] }
      { s with
          prompts := newPrompt :: s.prompts
          form := { title := "", content := "", category := "" }
          showForm := false
          toasts := addToast now "Prompt Shared!" ToastKind.success s.toasts }

/-- `handleDelete(id)`: after the `confirm(...)` dialog (its outcome is the
explicit `confirmed` argument), filter the prompt out and add a success
toast.  Note: no author or login check is performed here. -/
def handleDelete (now : Nat) (confirmed : Bool) (id : String) (s : AppState) : AppState :=
  if !confirmed then s
  else
    { s with
        prompts := s.prompts.filter (fun p => p.id != id)
        toasts := addToast now "Prompt deleted" ToastKind.success s.toasts }

/-- The per-prompt update performed by `handleLike` on the matching prompt:
`const isLiked = !p.liked_by_user; { ...p, liked_by_user: isLiked,
likes: isLiked ? p.likes + 1 : p.likes - 1 }`. -/
def togglePrompt (p : Prompt) : Prompt :=
  let isLiked := !p.liked_by_user
  { p with
      liked_by_user := isLiked
      likes := if isLiked then p.likes + 1 else p.likes - 1 }

/-- The callback of `setPrompts(prev => prev.map(...))` in `handleLike`:
toggle the prompt whose id matches, leave every other prompt as is. -/
def likeMap (id : String) (p : Prompt) : Prompt :=
  if p.id == id then togglePrompt p else p

/-- `handleLike(id)`: gate on login (error toast, no mutation), otherwise
map `likeMap` over the prompts. -/
def handleLike (now : Nat) (id : String) (s : AppState) : AppState :=
  match s.user with
  | none => { s with toasts := addToast now "Login to like posts" ToastKind.error s.toasts }
  | some _ => { s with prompts := s.prompts.map (likeMap id) }

/-- `commentInputs[id]`: JS record access, `none` when the key is absent. -/
def lookupInput (m : List (String × String)) (k : String) : Option String :=
  (m.find? (fun kv => kv.fst == k)).map (fun kv => kv.snd)

/-- `{ ...prev, [id]: v }`: update the record at key `k`. -/
def setInput (m : List (String × String)) (k v : String) : List (String × String) :=
  if m.any (fun kv => kv.fst == k) then
    m.map (fun kv => if kv.fst == k then (k, v) else kv)
  else m ++ [(k, v)]

/-- The `newComment` built by `handleCommentSubmit`. -/
def mkNewComment (now : Nat) (u : User) (text : String) (nowIso : String) : Comment :=
  { id := toString now
    user_name := jsOrStr u.full_name "User"
    text := text
    created_at := nowIso }

/-- The callback of `setPrompts(prev => prev.map(...))` in
`handleCommentSubmit`: append the comment to the matching prompt, leave
every other prompt as is. -/
def commentMap (id : String) (c : Comment) (p : Prompt) : Prompt :=
  if p.id == id then { p with comments := p.comments ++ [c] } else p

/-- `handleCommentSubmit(id)`: gate on login (error toast, no mutation),
silently return when `commentInputs[id]` is absent or trims to empty,
otherwise append the new comment to the matching prompt and clear the
input. -/
def handleCommentSubmit (now : Nat) (nowIso : String) (id : String) (s : AppState) : AppState :=
  match s.user with
  | none => { s with toasts := addToast now "Login to comment" ToastKind.error s.toasts }
  | some u =>
    match lookupInput s.commentInputs id with
    | none => s
    | some text =>
      if jsTrim text == "" then s
      else
        { s with
            prompts := s.prompts.map (commentMap id (mkNewComment now u text nowIso))
            commentInputs := setInput s.commentInputs id "" }

/-- The render-time guard of the delete button (`page.tsx` line 408):
`user && p.author_id === user.id` — only the author sees the control. -/
def canSeeDelete (user : Option User) (p : Prompt) : Bool :=
  match user with
  | none => false
  | some u => p.author_id == u.id

/-- A prompt as it arrives from the API before `loadPrompts` normalizes it
(`likes`, `comments`, `author_id`, `author_name` possibly absent). -/
structure RawPrompt where
  id : String
  author_id : Option String
  author_name : Option String
  title : String
  content : String
  category : String
  created_at : String
  likes : Option Int
  comments : Option (List Comment)
deriving Repr, DecidableEq

/-- The normalization `loadPrompts` applies to each fetched record:
`{ ...p, likes: p.likes || 0, liked_by_user: false, comments: p.comments
|| [], author_id: p.author_id || "other_user", author_name:
p.author_name || "Anonymous" }`. -/
def normalizePrompt (p : RawPrompt) : Prompt :=
  { id := p.id
    author_id := jsOrStr p.author_id "other_user"
    author_name := jsOrStr p.author_name "Anonymous"
    title := p.title
    content := p.content
    category := p.category
    created_at := p.created_at
    likes := p.likes.getD 0
    liked_by_user := false
    comments := p.comments.getD [] }

/-- Substring test on character lists: `haystack.includes(needle)`. -/
def containsSub (pat : List Char) : List Char → Bool
  | [] => pat.isEmpty
  | c :: t => pat.isPrefixOf (c :: t) || containsSub pat t

/-- `s.toLowerCase()` as a character list. -/
def lowerChars (s : String) : List Char := s.toList.map Char.toLower

/-- `matchSearch` of the `filtered` computation:
`(p.title + p.content).toLowerCase().includes(search.toLowerCase())`. -/
def matchSearch (search : String) (p : Prompt) : Bool :=
  containsSub (lowerChars search) (lowerChars (p.title ++ p.content))

/-- `matchCat` of the `filtered` computation:
`activeTab === "All" || p.category === activeTab`. -/
def matchCat (activeTab : String) (p : Prompt) : Bool :=
  activeTab == "All" || p.category == activeTab

/-- `const filtered = prompts.filter(p => matchSearch && matchCat)`. -/
def filtered (search activeTab : String) (prompts : List Prompt) : List Prompt :=
  prompts.filter (fun p => matchSearch search p && matchCat activeTab p)

/-- A user-triggered event of the page: the four handlers plus the state
setters reachable from the UI (typing, opening the form, toast lifecycle,
login/logout). -/
inductive StoreOp where
  | submit (now : Nat) (nowIso : String)
  | del (now : Nat) (confirmed : Bool) (id : String)
  | like (now : Nat) (id : String)
  | comment (now : Nat) (nowIso : String) (id : String)
  | toastAdd (now : Nat) (message : String) (kind : ToastKind)
  | toastRemove (id : Nat)
  | setForm (f : Form)
  | setShowForm (b : Bool)
  | typeComment (id : String) (text : String)
  | setUser (u : Option User)
deriving Repr

/-- Apply one event to the state. -/
def applyOp (s : AppState) : StoreOp → AppState
  | StoreOp.submit now nowIso => handleSubmit now nowIso s
  | StoreOp.del now confirmed id => handleDelete now confirmed id s
  | StoreOp.like now id => handleLike now id s
  | StoreOp.comment now nowIso id => handleCommentSubmit now nowIso id s
  | StoreOp.toastAdd now m k => { s with toasts := addToast now m k s.toasts }
  | StoreOp.toastRemove id => { s with toasts := removeToast id s.toasts }
  | StoreOp.setForm f => { s with form := f }
  | StoreOp.setShowForm b => { s with showForm := b }
  | StoreOp.typeComment id t => { s with commentInputs := setInput s.commentInputs id t }
  | StoreOp.setUser u => { s with user := u }

/-- Run a sequence of events. -/
def runOps (ops : List StoreOp) (s : AppState) : AppState := ops.foldl applyOp s

/-- Per-entity invariant: `likes` non-negative, and at least 1 while the
current user's like is counted in. -/
def invEntityB (p : Prompt) : Bool :=
  decide (0 ≤ p.likes) && (!p.liked_by_user || decide (1 ≤ p.likes))

/-- The invariant over the whole store. -/
def invStoreB (l : List Prompt) : Bool := l.all invEntityB

/-- Every entity has non-negative likes. -/
def nonnegLikesB (l : List Prompt) : Bool := l.all (fun p => decide (0 ≤ p.likes))

/-- Net change of `likes` after `n` toggles starting from liked-state `b`. -/
def netDelta (b : Bool) (n : Nat) : Int :=
  if n % 2 = 0 then 0 else if b then -1 else 1

/-- A sample toast. -/
def toastA : ToastType := { id := 5, message := "a", type := ToastKind.success }

/-- A sample prompt authored by `userA`. -/
def promptArt : Prompt :=
  { id := "p1", author_id := "userA", author_name := "Alice"
    title := "Midjourney Photorealism", content := "Hyper realistic photo"
    category := "Art", created_at := "2024-01-01", likes := 3
    liked_by_user := false, comments := [] }

/-- A sample prompt authored by `userB` with `likes = 5`,
`liked_by_user = false`. -/
def promptCode : Prompt :=
  { id := "p2", author_id := "userB", author_name := "Bob"
    title := "Python Debugger", content := "Act as a python expert"
    category := "Code", created_at := "2024-01-02", likes := 5
    liked_by_user := false, comments := [] }

/-- The sample authenticated user, whose id is `userB`. -/
def userBob : User := { id := "userB", full_name := some "Bob", email := none }

/-- A sample state: Bob logged in, two prompts in the store, no toasts. -/
def stateBob : AppState :=
  { user := some userBob, prompts := [promptArt, promptCode], toasts := []
    form := { title := "", content := "", category := "" }
    showForm := false, commentInputs := [] }

/-- A sample state with nobody logged in. -/
def stateAnon : AppState :=
  { user := none, prompts := [promptArt], toasts := []
    form := { title := "t", content := "c", category := "" }
    showForm := false, commentInputs := [] }

/-- A sample state with a whitespace-only form title and a whitespace-only
pending comment on `p1`. -/
def stateBlank : AppState :=
  { user := some userBob, prompts := [promptArt, promptCode], toasts := []
    form := { title := "   ", content := "body", category := "" }
    showForm := true, commentInputs := [("p1", "  ")] }

/-- A sample state with a pending comment "hi" on `p2`. -/
def stateBobC : AppState :=
  { user := some userBob, prompts := [promptArt, promptCode], toasts := []
    form := { title := "", content := "", category := "" }
    showForm := false, commentInputs := [("p2", "hi")] }

/-- A sample raw prompt as fetched from the API. -/
def rawSample : RawPrompt :=
  { id := "r1", author_id := none, author_name := some "X"
    title := "t", content := "c", category := "Art"
    created_at := "2023-01-01", likes := some 7, comments := none }

/-- A sample event sequence. -/
def opsSample : List StoreOp :=
  [StoreOp.like 1 "p2", StoreOp.like 2 "p2", StoreOp.del 3 true "zz",
   StoreOp.comment 4 "2024-01-05" "p2", StoreOp.submit 5 "2024-01-05",
   StoreOp.toastAdd 6 "hello" ToastKind.success, StoreOp.setUser none,
   StoreOp.like 7 "p1"]

/-! ## Helper lemmas -/

/-- The empty pattern is a substring of every list. -/
theorem containsSub_nil (s : List Char) : containsSub [] s = true := by
  cases s <;> rfl

/-- `containsSub` decides list-infix containment. -/
theorem containsSub_iff_infix (pat s : List Char) :
    containsSub pat s = true ↔ pat <:+: s := by
  induction s with
  | nil =>
    simp [containsSub, List.isEmpty_iff]
  | cons c t ih =>
    rw [containsSub, Bool.or_eq_true, ih, List.infix_cons_iff]
    rw [ List.isPrefixOf_iff_prefix]

/-- Parity recursion for the net like delta. -/
theorem netDelta_succ (b : Bool) (n : Nat) :
    netDelta b (n + 1) = (if b then (-1 : Int) else 1) + netDelta (!b) n := by
  rcases Nat.mod_two_eq_zero_or_one n with h | h <;> cases b <;>
    simp [netDelta, h, Nat.succ_mod_two_eq_one_iff, Nat.succ_mod_two_eq_zero_iff]

/-- Likes and liked-state after `n` iterated toggles. -/
theorem togglePrompt_iterate (p : Prompt) (n : Nat) :
    (togglePrompt^[n] p).likes = p.likes + netDelta p.liked_by_user n
    ∧ (togglePrompt^[n] p).liked_by_user
        = (if n % 2 = 0 then p.liked_by_user else !p.liked_by_user) := by
  induction n generalizing p with
  | zero => simp [netDelta]
  | succ n ih =>
    rw [Function.iterate_succ_apply]
    obtain ⟨ih1, ih2⟩ := ih (togglePrompt p)
    constructor
    · rw [ih1]
      cases hb : p.liked_by_user <;>
        simp [togglePrompt, hb, netDelta_succ] <;> ring
    · rw [ih2]
      rcases Nat.mod_two_eq_zero_or_one n with h | h <;>
        cases hb : p.liked_by_user <;>
          simp [togglePrompt, hb, h, Nat.succ_mod_two_eq_one_iff,
            Nat.succ_mod_two_eq_zero_iff]

/-! ## Claims -/

/-- C6: `removeToast` is idempotent, and removing an id that occurs nowhere
in the queue leaves the queue unchanged. -/
theorem c6_remove_idempotent (q : List ToastType) (id : Nat) :
    removeToast id (removeToast id q) = removeToast id q
    ∧ ((∀ t ∈ q, t.id ≠ id) → removeToast id q = q) := by
  constructor
  · simp [removeToast, List.filter_filter]
  · intro h
    rw [removeToast, List.filter_eq_self]
    intro t ht
    simpa using h t ht

/-- Witness for C6 at a concrete queue: removing id 5 twice equals removing
it once, and removing the absent id 9 is a no-op. -/
theorem c6_witness :
    removeToast 5 (removeToast 5 [toastA]) = removeToast 5 [toastA]
    ∧ removeToast 9 [toastA] = [toastA] :=
  ⟨(c6_remove_idempotent [toastA] 5).1,
   (c6_remove_idempotent [toastA] 9).2 (by decide)⟩

/-- C7: `filtered` returns an order-preserving subsequence of the store; a
prompt is kept exactly when the lowercased search string is contained in
the lowercased `title ++ content` and the category facet matches (or is
"All"); and the empty search with the "All" facet is the identity. -/
theorem c7_filter_spec (l : List Prompt) (search tab : String) (p : Prompt) :
    List.Sublist (filtered search tab l) l
    ∧ (p ∈ filtered search tab l ↔
        p ∈ l ∧ lowerChars search <:+: lowerChars (p.title ++ p.content)
          ∧ (tab = "All" ∨ p.category = tab))
    ∧ filtered "" "All" l = l := by
  refine ⟨List.filter_sublist _, ?_, ?_⟩
  · rw [filtered, List.mem_filter, Bool.and_eq_true]
    rw [matchSearch, containsSub_iff_infix, matchCat, Bool.or_eq_true]
    simp [and_assoc]
  · rw [filtered, List.filter_eq_self]
    intro q _
    rw [Bool.and_eq_true, matchSearch, matchCat]
    refine ⟨?_, by simp⟩
    exact containsSub_nil _

/-- C4: with no authenticated identity, each of the three mutating handlers
leaves the prompt store unchanged and appends exactly one error toast. -/
theorem c4_anonymous_gate (s : AppState) (now : Nat) (nowIso : String)
    (pid : String) (h : s.user = none) :
    ((handleSubmit now nowIso s).prompts = s.prompts
      ∧ (handleSubmit now nowIso s).toasts
          = s.toasts ++ [⟨now, "Please login to share prompts", ToastKind.error⟩])
    ∧ ((handleLike now pid s).prompts = s.prompts
      ∧ (handleLike now pid s).toasts
          = s.toasts ++ [⟨now, "Login to like posts", ToastKind.error⟩])
    ∧ ((handleCommentSubmit now nowIso pid s).prompts = s.prompts
      ∧ (handleCommentSubmit now nowIso pid s).toasts
          = s.toasts ++ [⟨now, "Login to comment", ToastKind.error⟩]) := by
  simp [handleSubmit, handleLike, handleCommentSubmit, addToast, h]

/-- Witness for C4 at a concrete anonymous state. -/
theorem c4_witness :
    (handleSubmit 7 "2024-01-03" stateAnon).prompts = stateAnon.prompts
    ∧ (handleSubmit 7 "2024-01-03" stateAnon).toasts
        = stateAnon.toasts ++ [⟨7, "Please login to share prompts", ToastKind.error⟩]
    ∧ (handleLike 7 "p1" stateAnon).prompts = stateAnon.prompts
    ∧ (handleLike 7 "p1" stateAnon).toasts
        = stateAnon.toasts ++ [⟨7, "Login to like posts", ToastKind.error⟩]
    ∧ (handleCommentSubmit 7 "2024-01-03" "p1" stateAnon).prompts = stateAnon.prompts
    ∧ (handleCommentSubmit 7 "2024-01-03" "p1" stateAnon).toasts
        = stateAnon.toasts ++ [⟨7, "Login to comment", ToastKind.error⟩] := by
  have h := c4_anonymous_gate stateAnon 7 "2024-01-03" "p1" rfl
  exact ⟨h.1.1, h.1.2, h.2.1.1, h.2.1.2, h.2.2.1, h.2.2.2⟩

/-- C1 counterexample: Bob (`userB`) is authenticated, `promptArt` is
authored by `userA`, yet `handleDelete` on it removes it from the store and
appends a success — not an error — toast.  So delete by a non-author is
not rejected, the store changes, and no error notification is appended. -/
theorem c1_counterexample :
    stateBob.user = some userBob
    ∧ promptArt.author_id ≠ userBob.id
    ∧ (handleDelete 100 true "p1" stateBob).prompts = [promptCode]
    ∧ (handleDelete 100 true "p1" stateBob).prompts ≠ stateBob.prompts
    ∧ (handleDelete 100 true "p1" stateBob).toasts
        = [{ id := 100, message := "Prompt deleted", type := ToastKind.success }] := by
  refine ⟨rfl, by decide, by decide, by decide, by decide⟩

/-- C1 amended: `handleDelete` performs no author check at all — its effect
on the store is identical whatever identity (or none) is current, it
removes every prompt whose id matches and appends a success toast; the
author restriction lives only in the UI guard `canSeeDelete`, which shows
the delete control exactly when the current identity is the entity's
author. -/
theorem c1_amended_delete_ignores_identity (s : AppState) (now : Nat)
    (pid : String) (w1 w2 : Option User) (u : User) (p : Prompt) :
    (handleDelete now true pid { s with user := w1 }).prompts
      = (handleDelete now true pid { s with user := w2 }).prompts
    ∧ (handleDelete now true pid s).prompts = s.prompts.filter (fun q => q.id != pid)
    ∧ (handleDelete now true pid s).toasts
        = s.toasts ++ [⟨now, "Prompt deleted", ToastKind.success⟩]
    ∧ canSeeDelete none p = false
    ∧ canSeeDelete (some u) p = (p.author_id == u.id) := by
  simp [handleDelete, addToast, canSeeDelete]

/-- C5 counterexample: two `addToast` calls within the same clock tick
(`Date.now() = 100` both times) produce two queue entries with the same id,
so the queue's ids are not unique. -/
theorem c5_counterexample :
    ¬ List.Nodup ((addToast 100 "second" ToastKind.error
        (addToast 100 "first" ToastKind.success [])).map (fun t => t.id)) := by
  decide

/-- C5 amended: each `addToast` places its entry at the end of the queue
(display order = insertion order) and uses the clock value as the id, so
ids stay unique only when every append happens at a distinct clock tick;
two appends within the same tick receive the same id. -/
theorem c5_amended_ids_distinct_across_ticks (q : List ToastType)
    (n1 n2 : Nat) (m1 m2 : String) (k1 k2 : ToastKind)
    (hq : (q.map (fun t => t.id)).Nodup)
    (hfresh : ∀ t ∈ q, t.id ≠ n1 ∧ t.id ≠ n2)
    (hne : n1 ≠ n2) :
    addToast n1 m1 k1 q = q ++ [⟨n1, m1, k1⟩]
    ∧ ((addToast n2 m2 k2 (addToast n1 m1 k1 q)).map (fun t => t.id)).Nodup := by
  refine ⟨rfl, ?_⟩
  rw [addToast, addToast, List.append_assoc, List.map_append, List.nodup_append]
  refine ⟨hq, by simp [hne], ?_⟩
  intro a ha hb
  obtain ⟨t, ht, rfl⟩ := List.mem_map.1 ha
  rcases hfresh t ht with ⟨h1, h2⟩
  simp at hb
  rcases hb with hb | hb
  · exact h1 hb
  · exact h2 hb

/-- Witness for C5 amended, at the empty queue and ticks 100 ≠ 200. -/
theorem c5_witness :
    addToast 100 "first" ToastKind.success [] = [⟨100, "first", ToastKind.success⟩]
    ∧ ((addToast 200 "second" ToastKind.error
          (addToast 100 "first" ToastKind.success [])).map (fun t => t.id)).Nodup := by
  have h := c5_amended_ids_distinct_across_ticks [] 100 200 "first" "second"
    ToastKind.success ToastKind.error (by decide) (by decide) (by decide)
  exact ⟨h.1, h.2⟩

/-- C8 counterexample: Bob is authenticated, the form title is
whitespace-only and the pending comment on `p1` is whitespace-only; both
`handleSubmit` and `handleCommentSubmit` reject by returning the state
completely unchanged, so no error notification is surfaced (the toast
queue stays empty). -/
theorem c8_counterexample :
    handleSubmit 100 "2024-01-03" stateBlank = stateBlank
    ∧ handleCommentSubmit 100 "2024-01-03" "p1" stateBlank = stateBlank
    ∧ stateBlank.toasts = [] := by
  refine ⟨by decide, by decide, rfl⟩

/-- C8 amended: with an authenticated identity, a create whose title or
content trims to empty, and an addComment whose pending text is absent or
trims to empty, are rejected synchronously with the whole state — store,
comments and notification queue alike — unchanged; the rejection is
silent, no notification is appended. -/
theorem c8_amended_silent_validation (s : AppState) (u : User) (now : Nat)
    (nowIso : String) (pid : String) (hu : s.user = some u) :
    ((jsTrim s.form.title == "" || jsTrim s.form.content == "") = true →
        handleSubmit now nowIso s = s)
    ∧ (lookupInput s.commentInputs pid = none →
        handleCommentSubmit now nowIso pid s = s)
    ∧ (∀ text, lookupInput s.commentInputs pid = some text →
        (jsTrim text == "") = true → handleCommentSubmit now nowIso pid s = s) := by
  refine ⟨?_, ?_, ?_⟩
  · intro hb
    simp [handleSubmit, hu, hb]
  · intro hl
    simp [handleCommentSubmit, hu, hl]
  · intro text hl ht
    simp [handleCommentSubmit, hu, hl, ht]

/-- Witness for C8 amended at `stateBlank`: the blank-title create and the
whitespace-only comment on `p1` (and a comment on a key with no pending
text) are all silent no-ops. -/
theorem c8_witness :
    handleSubmit 9 "2024-01-03" stateBlank = stateBlank
    ∧ handleCommentSubmit 9 "2024-01-03" "nokey" stateBlank = stateBlank
    ∧ handleCommentSubmit 9 "2024-01-03" "p1" stateBlank = stateBlank := by
  have h := c8_amended_silent_validation stateBlank userBob 9 "2024-01-03" "p1" rfl
  have h2 := c8_amended_silent_validation stateBlank userBob 9 "2024-01-03" "nokey" rfl
  exact ⟨h.1 (by decide), h2.2.1 (by decide), h.2.2 "  " (by decide) (by decide)⟩

/-- C9: `handleDelete` (once confirmed) removes exactly the prompt carrying
the given id, preserving the relative order of the remaining prompts, and
is a no-op on the store when no prompt carries that id. -/
theorem c9_delete_exact (s : AppState) (now : Nat) (pid : String) :
    ((∀ q ∈ s.prompts, q.id ≠ pid) →
        (handleDelete now true pid s).prompts = s.prompts)
    ∧ (∀ l1 l2 e, s.prompts = l1 ++ e :: l2 → e.id = pid →
        (∀ q ∈ l1 ++ l2, q.id ≠ pid) →
        (handleDelete now true pid s).prompts = l1 ++ l2) := by
  constructor
  · intro h
    simp only [handleDelete, Bool.not_true, Bool.false_eq_true, if_false]
    rw [List.filter_eq_self]
    intro q hq
    simpa using h q hq
  · intro l1 l2 e hdec he hoth
    simp only [handleDelete, Bool.not_true, Bool.false_eq_true, if_false]
    rw [hdec, List.filter_append, List.filter_cons]
    have he' : (e.id != pid) = false := by simp [he]
    rw [he']
    have h1 : l1.filter (fun p => p.id != pid) = l1 := by
      rw [List.filter_eq_self]
      intro q hq
      simpa using hoth q (List.mem_append.2 (Or.inl hq))
    have h2 : l2.filter (fun p => p.id != pid) = l2 := by
      rw [List.filter_eq_self]
      intro q hq
      simpa using hoth q (List.mem_append.2 (Or.inr hq))
    simp [h1, h2]

/-- Witness for C9 at `stateBob`: deleting the absent id `zz` leaves the
store unchanged; deleting `p1` leaves exactly `[promptCode]`. -/
theorem c9_witness :
    (handleDelete 1 true "zz" stateBob).prompts = stateBob.prompts
    ∧ (handleDelete 1 true "p1" stateBob).prompts = [promptCode] := by
  constructor
  · exact (c9_delete_exact stateBob 1 "zz").1 (by decide)
  · have h := (c9_delete_exact stateBob 1 "p1").2 [] [promptCode] promptArt
      rfl rfl (by decide)
    simpa using h

/-- C2: `handleLike` (when authenticated) maps `likeMap` over the store,
which toggles exactly the matching prompt; `n` iterated toggles change
`likes` by the net number of like transitions (`netDelta`) and set
`liked_by_user` to the initial value XOR'd with the toggle-count parity;
and from `likes = 5, liked_by_user = false` one toggle gives `6, true` and
a second restores `5, false`. -/
theorem c2_toggle_parity (s : AppState) (u : User) (now : Nat) (pid : String)
    (p : Prompt) (n : Nat) (hu : s.user = some u) :
    (handleLike now pid s).prompts = s.prompts.map (likeMap pid)
    ∧ ((p.id == pid) = true → likeMap pid p = togglePrompt p)
    ∧ (togglePrompt^[n] p).likes = p.likes + netDelta p.liked_by_user n
    ∧ ((togglePrompt^[n] p).liked_by_user
        = (if n % 2 = 0 then p.liked_by_user else !p.liked_by_user))
    ∧ (p.likes = 5 → p.liked_by_user = false →
        (togglePrompt p).likes = 6 ∧ (togglePrompt p).liked_by_user = true
        ∧ (togglePrompt (togglePrompt p)).likes = 5
        ∧ (togglePrompt (togglePrompt p)).liked_by_user = false) := by
  refine ⟨by simp [handleLike, hu], ?_, (togglePrompt_iterate p n).1,
    (togglePrompt_iterate p n).2, ?_⟩
  · intro h
    simp [likeMap, h]
  · intro h5 hb
    simp [togglePrompt, h5, hb]

/-- Witness for C2 at `stateBob` and `promptCode` (likes 5, not liked),
with three toggles. -/
theorem c2_witness :
    (handleLike 3 "p2" stateBob).prompts = stateBob.prompts.map (likeMap "p2")
    ∧ likeMap "p2" promptCode = togglePrompt promptCode
    ∧ (togglePrompt^[3] promptCode).likes
        = promptCode.likes + netDelta promptCode.liked_by_user 3
    ∧ ((togglePrompt^[3] promptCode).liked_by_user
        = (if 3 % 2 = 0 then promptCode.liked_by_user else !promptCode.liked_by_user))
    ∧ (togglePrompt promptCode).likes = 6
    ∧ (togglePrompt promptCode).liked_by_user = true
    ∧ (togglePrompt (togglePrompt promptCode)).likes = 5
    ∧ (togglePrompt (togglePrompt promptCode)).liked_by_user = false := by
  have h := c2_toggle_parity stateBob userBob 3 "p2" promptCode 3 rfl
  have h5 := h.2.2.2.2 rfl rfl
  exact ⟨h.1, h.2.1 (by decide), h.2.2.1, h.2.2.2.1, h5.1, h5.2.1, h5.2.2.1, h5.2.2.2⟩

/-- C10: with an authenticated identity, `handleLike` acts positionwise as
`likeMap`, which leaves non-matching prompts untouched and changes only
`likes`/`liked_by_user` of the matching one; `handleCommentSubmit` (with a
pending non-blank text) acts positionwise as `commentMap`, which leaves
non-matching prompts untouched and only appends one comment at the end of
the matching prompt's comments, all other fields unchanged. -/
theorem c10_frame (s : AppState) (u : User) (now : Nat) (nowIso : String)
    (pid : String) (text : String) (c : Comment) (hu : s.user = some u) :
    (∀ i : Nat, (handleLike now pid s).prompts[i]? = (s.prompts[i]?).map (likeMap pid))
    ∧ (∀ p : Prompt, (p.id == pid) = false → likeMap pid p = p)
    ∧ (∀ p : Prompt, (p.id == pid) = true →
        (likeMap pid p).id = p.id ∧ (likeMap pid p).author_id = p.author_id
        ∧ (likeMap pid p).author_name = p.author_name
        ∧ (likeMap pid p).title = p.title ∧ (likeMap pid p).content = p.content
        ∧ (likeMap pid p).category = p.category
        ∧ (likeMap pid p).created_at = p.created_at
        ∧ (likeMap pid p).comments = p.comments)
    ∧ (lookupInput s.commentInputs pid = some text → (jsTrim text == "") = false →
        ∀ i : Nat, (handleCommentSubmit now nowIso pid s).prompts[i]?
          = (s.prompts[i]?).map (commentMap pid (mkNewComment now u text nowIso)))
    ∧ (∀ p : Prompt, (p.id == pid) = false → commentMap pid c p = p)
    ∧ (∀ p : Prompt, (p.id == pid) = true →
        (commentMap pid c p).comments = p.comments ++ [c]
        ∧ (commentMap pid c p).id = p.id
        ∧ (commentMap pid c p).author_id = p.author_id
        ∧ (commentMap pid c p).author_name = p.author_name
        ∧ (commentMap pid c p).title = p.title
        ∧ (commentMap pid c p).content = p.content
        ∧ (commentMap pid c p).category = p.category
        ∧ (commentMap pid c p).created_at = p.created_at
        ∧ (commentMap pid c p).likes = p.likes
        ∧ (commentMap pid c p).liked_by_user = p.liked_by_user) := by
  refine ⟨?_, ?_, ?_, ?_, ?_, ?_⟩
  · intro i
    simp [handleLike, hu]
  · intro p h
    simp [likeMap, h]
  · intro p h
    simp [likeMap, h, togglePrompt]
  · intro hl ht i
    simp [handleCommentSubmit, hu, hl, ht]
  · intro p h
    simp [commentMap, h]
  · intro p h
    simp [commentMap, h]

/-- Witness for C10 at `stateBobC` (pending comment "hi" on `p2`),
position 0 and the non-matching prompt `promptArt`. -/
theorem c10_witness :
    (handleLike 3 "p2" stateBobC).prompts[0]?
      = (stateBobC.prompts[0]?).map (likeMap "p2")
    ∧ likeMap "p2" promptArt = promptArt
    ∧ (likeMap "p2" promptCode).comments = promptCode.comments
    ∧ (handleCommentSubmit 4 "2024-01-05" "p2" stateBobC).prompts[1]?
      = (stateBobC.prompts[1]?).map (commentMap "p2" (mkNewComment 4 userBob "hi" "2024-01-05"))
    ∧ commentMap "p2" (mkNewComment 4 userBob "hi" "2024-01-05") promptArt = promptArt
    ∧ (commentMap "p2" (mkNewComment 4 userBob "hi" "2024-01-05") promptCode).comments
      = promptCode.comments ++ [mkNewComment 4 userBob "hi" "2024-01-05"]
    ∧ (commentMap "p2" (mkNewComment 4 userBob "hi" "2024-01-05") promptCode).likes
      = promptCode.likes := by
  have h := c10_frame stateBobC userBob 3 "2024-01-05" "p2" "hi"
    (mkNewComment 4 userBob "hi" "2024-01-05") rfl
  have h4 := c10_frame stateBobC userBob 4 "2024-01-05" "p2" "hi"
    (mkNewComment 4 userBob "hi" "2024-01-05") rfl
  exact ⟨h.1 0, h.2.1 promptArt (by decide), (h.2.2.1 promptCode (by decide)).2.2.2.2.2.2.2,
    h4.2.2.2.1 (by decide) (by decide) 1,
    h4.2.2.2.2.1 promptArt (by decide),
    (h4.2.2.2.2.2 promptCode (by decide)).1,
    (h4.2.2.2.2.2 promptCode (by decide)).2.2.2.2.2.2.2.2.1⟩

/-- Toggling preserves the per-entity likes invariant. -/
theorem invEntityB_togglePrompt (p : Prompt) (h : invEntityB p = true) :
    invEntityB (togglePrompt p) = true := by
  cases hb : p.liked_by_user <;>
    simp [invEntityB, togglePrompt, hb] at h ⊢ <;> omega

/-- `likeMap` preserves the per-entity likes invariant. -/
theorem invEntityB_likeMap (pid : String) (p : Prompt) (h : invEntityB p = true) :
    invEntityB (likeMap pid p) = true := by
  rw [likeMap]
  by_cases hid : (p.id == pid) = true
  · rw [if_pos hid]
    exact invEntityB_togglePrompt p h
  · rw [if_neg hid]
    exact h

/-- `commentMap` preserves the per-entity likes invariant. -/
theorem invEntityB_commentMap (pid : String) (c : Comment) (p : Prompt)
    (h : invEntityB p = true) : invEntityB (commentMap pid c p) = true := by
  rw [commentMap]
  by_cases hid : (p.id == pid) = true
  · rw [if_pos hid]
    simpa [invEntityB] using h
  · rw [if_neg hid]
    exact h

/-- Each page event preserves the store-wide likes invariant. -/
theorem invStoreB_applyOp (s : AppState) (o : StoreOp)
    (h : invStoreB s.prompts = true) : invStoreB (applyOp s o).prompts = true := by
  have hmem : ∀ p ∈ s.prompts, invEntityB p = true := by
    simpa [invStoreB, List.all_eq_true] using h
  have goal_of : ∀ l : List Prompt, (∀ p ∈ l, invEntityB p = true) →
      invStoreB l = true := by
    intro l hl
    simpa [invStoreB, List.all_eq_true] using hl
  cases o with
  | submit now nowIso =>
    simp only [applyOp, handleSubmit]
    cases hu : s.user with
    | none => exact goal_of _ hmem
    | some u =>
      dsimp only
      by_cases hb : (jsTrim s.form.title == "" || jsTrim s.form.content == "") = true
      · rw [if_pos hb]
        exact goal_of _ hmem
      · rw [if_neg hb]
        refine goal_of _ ?_
        intro p hp
        rcases List.mem_cons.1 hp with hnew | hold
        · subst hnew
          simp [invEntityB]
        · exact hmem p hold
  | del now confirmed id =>
    simp only [applyOp, handleDelete]
    cases confirmed with
    | false => exact goal_of _ hmem
    | true =>
      simp only [Bool.not_true, Bool.false_eq_true, if_false]
      refine goal_of _ ?_
      intro p hp
      exact hmem p (List.mem_filter.1 hp).1
  | like now id =>
    simp only [applyOp, handleLike]
    cases hu : s.user with
    | none => exact goal_of _ hmem
    | some u =>
      refine goal_of _ ?_
      intro p hp
      obtain ⟨q, hq, rfl⟩ := List.mem_map.1 hp
      exact invEntityB_likeMap id q (hmem q hq)
  | comment now nowIso id =>
    simp only [applyOp, handleCommentSubmit]
    cases hu : s.user with
    | none => exact goal_of _ hmem
    | some u =>
      cases hl : lookupInput s.commentInputs id with
      | none => exact goal_of _ hmem
      | some text =>
        dsimp only
        by_cases ht : (jsTrim text == "") = true
        · rw [if_pos ht]
          exact goal_of _ hmem
        · rw [if_neg ht]
          refine goal_of _ ?_
          intro p hp
          obtain ⟨q, hq, rfl⟩ := List.mem_map.1 hp
          exact invEntityB_commentMap id _ q (hmem q hq)
  | toastAdd now m k => exact goal_of _ hmem
  | toastRemove id => exact goal_of _ hmem
  | setForm f => exact goal_of _ hmem
  | setShowForm b => exact goal_of _ hmem
  | typeComment id t => exact goal_of _ hmem
  | setUser u => exact goal_of _ hmem

/-- Any event sequence preserves the store-wide likes invariant. -/
theorem invStoreB_runOps (ops : List StoreOp) (s : AppState)
    (h : invStoreB s.prompts = true) : invStoreB (runOps ops s).prompts = true := by
  induction ops generalizing s with
  | nil => exact h
  | cons o rest ih => exact ih _ (invStoreB_applyOp s o h)

/-- C3: a like toggle flips `liked_by_user` and changes `likes` by exactly
±1 in the same transition (+1 when it becomes true, −1 when it becomes
false); a prompt normalized at load time from non-negative raw likes
satisfies the likes invariant; and from any store satisfying the invariant,
every state reachable through the page's operations has only non-negative
likes. -/
theorem c3_likes_nonneg (pid : String) (p : Prompt) (r : RawPrompt)
    (s : AppState) (ops : List StoreOp) :
    ((p.id == pid) = true →
      (likeMap pid p).liked_by_user = !p.liked_by_user
        ∧ (likeMap pid p).likes
            = (if (likeMap pid p).liked_by_user then p.likes + 1 else p.likes - 1))
    ∧ (0 ≤ r.likes.getD 0 → invEntityB (normalizePrompt r) = true)
    ∧ (invStoreB s.prompts = true → nonnegLikesB (runOps ops s).prompts = true) := by
  refine ⟨?_, ?_, ?_⟩
  · intro h
    simp [likeMap, h, togglePrompt]
  · intro hr
    simp [invEntityB, normalizePrompt, hr]
  · intro h
    have h2 := invStoreB_runOps ops s h
    have hmem : ∀ p ∈ (runOps ops s).prompts, invEntityB p = true := by
      simpa [invStoreB, List.all_eq_true] using h2
    rw [nonnegLikesB, List.all_eq_true]
    intro q hq
    have := hmem q hq
    simp [invEntityB] at this ⊢
    exact this.1

/-- Witness for C3: the toggle on `promptCode`, the normalized `rawSample`,
and the concrete event sequence `opsSample` run from `stateBob`. -/
theorem c3_witness :
    ((likeMap "p2" promptCode).liked_by_user = !promptCode.liked_by_user
      ∧ (likeMap "p2" promptCode).likes
          = (if (likeMap "p2" promptCode).liked_by_user then promptCode.likes + 1
             else promptCode.likes - 1))
    ∧ invEntityB (normalizePrompt rawSample) = true
    ∧ nonnegLikesB (runOps opsSample stateBob).prompts = true := by
  have h := c3_likes_nonneg "p2" promptCode rawSample stateBob opsSample
  exact ⟨h.1 (by decide), h.2.1 (by decide), h.2.2 (by decide)⟩
